import Mathlib

/-!
Verification development for the finLine LBO analysis engine
(`backend/engine/{models,extractor,cash_flow,debt,lbo,sources_uses}.py`).

The engine is shallowly embedded over ℚ (Python floats become exact
rationals; every numeric policy of the source — tax floor at zero,
clipping, revolver plug, 10-iteration fixed point — is transcribed
literally).  Years are ℕ, labels are `String`.  Dictionary entries whose
presence is observable (interest recorded only for positive balances,
the revolver's per-year balance slot) are modelled with `Option`.
-/

namespace FinLine

/-- Absolute value as Python `abs`, written with `if` so that it evaluates
by rewriting (the source uses `abs` on floats). -/
def absQ (x : ℚ) : ℚ := if x < 0 then -x else x

/-- Lookup in an association list with a default, as Python `dict.get(k, d)`. -/
def lookupD : List (String × ℚ) → String → ℚ → ℚ
  | [], _, d => d
  | (k, v) :: rest, key, d => if k = key then v else lookupD rest key d

/-- Lexicographic code-point comparison of character lists; this is the
ordering Python uses for `str < str` (and the one `sorted` applies to the
`(seniority, label)` keys in `debt.py`). -/
def charListLt : List Char → List Char → Bool
  | [], [] => false
  | [], _ :: _ => true
  | _ :: _, [] => false
  | a :: as, b :: bs =>
    if a.toNat < b.toNat then true
    else if b.toNat < a.toNat then false
    else charListLt as bs

/-- Split a character list at a separator, as Python `str.split(sep)` for a
one-character separator. -/
def splitOnChar (sep : Char) : List Char → List (List Char)
  | [] => [[]]
  | c :: cs =>
    let r := splitOnChar sep cs
    if c = sep then [] :: r
    else
      match r with
      | [] => [[c]]
      | g :: gs => (c :: g) :: gs

/-- Strip leading and trailing whitespace, as Python `str.strip()`. -/
def trimChars (cs : List Char) : List Char :=
  ((cs.dropWhile Char.isWhitespace).reverse.dropWhile Char.isWhitespace).reverse

/-- Value of a digit list read in base 10. -/
def digitsVal (cs : List Char) : ℕ :=
  cs.foldl (fun n c => 10 * n + (c.toNat - 48)) 0

/-- Python `float(s)` restricted to the plain decimal literals relevant to
amortization-schedule strings: optional surrounding whitespace, optional
sign, digits with at most one decimal point (at least one digit).  `none`
models the `ValueError` branch of `debt.py:_get_amortization_schedule`. -/
def parseFloatChars (cs0 : List Char) : Option ℚ :=
  let cs1 := trimChars cs0
  let sgn : ℚ := match cs1 with
    | '-' :: _ => -1
    | _ => 1
  let cs : List Char := match cs1 with
    | '-' :: r => r
    | '+' :: r => r
    | _ => cs1
  match splitOnChar '.' cs with
  | [ip] =>
    if ip ≠ [] ∧ ip.all Char.isDigit then some (sgn * digitsVal ip) else none
  | [ip, fp] =>
    if ip.all Char.isDigit ∧ fp.all Char.isDigit ∧ (ip ≠ [] ∨ fp ≠ []) then
      some (sgn * ((digitsVal ip : ℚ) + (digitsVal fp : ℚ) / (10 ^ fp.length)))
    else none
  | _ => none

/-- A debt tranche as produced by `ProjectExtractor.extract_debt_structure`
(`engine/extractor.py`): field synonyms and defaults are already resolved,
so only the engine-relevant fields remain. -/
structure Tranche where
  label : String
  trancheType : String
  originalSize : ℚ
  interestRate : ℚ
  interestMargin : ℚ
  pikRate : ℚ
  amortSchedule : String
  financingFees : ℚ
  repaymentSeniority : Int
  percentageDrawn : ℚ
deriving DecidableEq

/-- Revolver detection from the lower-cased type string
(`debt.py` line 35). -/
def isRevolverType (ty : String) : Bool :=
  let l := ty.data.map Char.toLower
  l = "revolver".data ∨ l = "revolving credit facility".data ∨ l = "rcf".data

/-- Floating-rate detection from the lower-cased type string
(`extractor.py` line 188, stored as `is_floating_rate` on the tranche). -/
def isFloatingType (ty : String) : Bool :=
  let l := ty.data.map Char.toLower
  l = "loan".data ∨ l = "syndicated loan".data ∨ l = "revolver".data ∨
    l = "rcf".data ∨ l = "frn".data ∨ l = "term_loan".data

/-- Derived drawn amount, `DebtTranche.__post_init__`. -/
def Tranche.drawnAmount (t : Tranche) : ℚ := t.originalSize * t.percentageDrawn

/-- Derived financing fee amount, `DebtTranche.__post_init__`. -/
def Tranche.financingFeeAmount (t : Tranche) : ℚ := t.originalSize * t.financingFees

/-- The reference curve built by `DebtScheduleTracker.__init__` carries the
default flat rate: `ReferenceRateCurve.get_rate_for_year` returns 0.02 for
every year (the dict holds 0.02 for 2024–2035 and the `.get` default is
also 0.02). -/
def refRate : ℚ := 2 / 100

/-- Applicable cash interest rate for a year,
`DebtScheduleTracker._calculate_interest_rate`. -/
def cashRate (t : Tranche) : ℚ :=
  if isFloatingType t.trancheType then refRate + t.interestMargin else t.interestRate

/-- Parsed amortization schedule,
`DebtScheduleTracker._get_amortization_schedule`: empty or "0" strings give
no schedule; otherwise split on "/" and each segment is `float(seg)/100`,
with a segment that fails to parse contributing 0. -/
def getAmortizationSchedule (s : String) : List ℚ :=
  if s = "" then []
  else
    let t := trimChars s.data
    if t = [] ∨ t = ['0'] then []
    else (splitOnChar '/' t).map fun part =>
      match parseFloatChars part with
      | some v => v / 100
      | none => 0

/-- Ordering key used by `debt.py` for `sorted(..., key=(seniority, label))`:
a tuple comparison, seniority first then label by code points. -/
def trancheLe (a b : Tranche) : Bool :=
  if a.repaymentSeniority < b.repaymentSeniority then true
  else if a.repaymentSeniority = b.repaymentSeniority then
    !(charListLt b.label.data a.label.data)
  else false

/-- Engine input after extraction (`ProjectExtractor.extract_all`): the
financial series (present series are total functions year → value with
missing years read as 0, exactly `FinFigs.get_value`), the tranches, and
the deal parameters.  Dates are reduced to their years, which is all the
engine reads from them. -/
structure Input where
  ebitda : Option (ℕ → ℚ)
  ebit : Option (ℕ → ℚ)
  dAndA : Option (ℕ → ℚ)
  capex : Option (ℕ → ℚ)
  workingCapital : Option (ℕ → ℚ)
  tranches : List Tranche
  entryMultiple : ℚ
  exitMultiple : ℚ
  entryFeePct : ℚ
  exitFeePct : ℚ
  taxRate : ℚ
  minCash : ℚ
  dealYear : ℕ
  exitYear : ℕ

/-- Purchase price derivation of `ProjectExtractor.extract_deal_parameters`:
deal-year EBITDA times the entry multiple when both are positive, else 0. -/
def purchasePriceOf (inp : Input) : ℚ :=
  if 0 < inp.entryMultiple then
    match inp.ebitda with
    | some f => if 0 < f inp.dealYear then f inp.dealYear * inp.entryMultiple else 0
    | none => 0
  else 0

/-- One row of the annual cash-flow table
(`CashFlowEngine.calculate_annual_cash_flows`). -/
structure YearCF where
  ebitda : ℚ
  ebit : ℚ
  dAndA : ℚ
  cashTaxes : ℚ
  capex : ℚ
  changeWc : ℚ
  unleveredFcf : ℚ
  cashInterest : ℚ
  fcf : ℚ
  cfads : ℚ
deriving DecidableEq

/-- One year of `calculate_annual_cash_flows`, also returning the updated
working-capital carry value. -/
def cfRow (inp : Input) (prevWc : ℚ) (y : ℕ) : YearCF × ℚ :=
  let ebitda : ℚ := match inp.ebitda with | some f => f y | none => 0
  let da : ℚ := match inp.dAndA with | some f => f y | none => 0
  let ebit : ℚ := match inp.ebit with | some f => f y | none => ebitda - da
  let ct : ℚ := max 0 (ebit * inp.taxRate)
  let capex0 : ℚ := match inp.capex with | some f => f y | none => 0
  let capex : ℚ := if 0 < capex0 then -capex0 else capex0
  let wcPair : ℚ × ℚ := match inp.workingCapital with
    | some f => if f y ≠ 0 ∨ prevWc ≠ 0 then (f y - prevWc, f y) else (0, prevWc)
    | none => (0, prevWc)
  let chg := wcPair.1
  let ulf := ebitda + (-ct) + capex + (-chg)
  ({ ebitda := ebitda, ebit := ebit, dAndA := da, cashTaxes := -ct, capex := capex,
     changeWc := -chg, unleveredFcf := ulf, cashInterest := 0, fcf := ulf,
     cfads := ulf }, wcPair.2)

/-- Fold of `cfRow` over the forecast years, threading the prior working
capital. -/
def cfRows (inp : Input) : List ℕ → ℚ → List (ℕ × YearCF)
  | [], _ => []
  | y :: ys, pw =>
    let p := cfRow inp pw y
    (y, p.1) :: cfRows inp ys p.2

/-- Forecast horizon `[deal_year+1 .. exit_year]`
(`calculate_annual_cash_flows`); empty when the exit year is not after the
deal year. -/
def horizonYears (inp : Input) : List ℕ :=
  List.range' (inp.dealYear + 1) (inp.exitYear - inp.dealYear)

/-- Model of `CashFlowEngine.calculate_annual_cash_flows`: the first-pass cash-flow
table, taxes on EBIT with the deal rate, interest slots zero. -/
def calcAnnualCashFlows (inp : Input) : List (ℕ × YearCF) :=
  cfRows inp (horizonYears inp)
    (match inp.workingCapital with | some f => f inp.dealYear | none => 0)

/-- Lookup in a year-keyed association list with a default, as Python
`dict.get(year, d)`. -/
def lookupDNat : List (ℕ × ℚ) → ℕ → ℚ → ℚ
  | [], _, d => d
  | (k, v) :: rest, key, d => if k = key then v else lookupDNat rest key d

/-- One year of `CashFlowEngine.update_with_interest`: re-tax on
PBT = EBIT − total interest, store cash interest, rebuild unlevered FCF,
FCF and CFADS. -/
def updateYearWithInterest (taxRate : ℚ) (cf : YearCF) (ti ci : ℚ) : YearCF :=
  let ct := max 0 ((cf.ebit - ti) * taxRate)
  let ulf := cf.ebitda + (-ct) + cf.capex + cf.changeWc
  { cf with
    cashTaxes := -ct
    cashInterest := -ci
    unleveredFcf := ulf
    fcf := ulf + (-ci)
    cfads := ulf + (-ci) }

/-- Model of `CashFlowEngine.update_with_interest` over the whole table; the interest
schedules are read with `.get(year, 0)`. -/
def updateWithInterest (taxRate : ℚ) (cfs : List (ℕ × YearCF))
    (ti ci : List (ℕ × ℚ)) : List (ℕ × YearCF) :=
  cfs.map fun p =>
    (p.1, updateYearWithInterest taxRate p.2
      (lookupDNat ti p.1 0) (lookupDNat ci p.1 0))

/-- Per-tranche per-year slot of the waterfall
(`DebtScheduleTracker.calculate_schedules`).  `interest` and `pik` are
`Option` because the source records `interest_expense[year]` /
`pik_interest[year]` only inside the `beginning_balance > 0` branch;
`balance` is `Option` because the revolver's `balances[year]` entry is
created lazily; `opening` is the `balances[prev_year]` value the year
started from. -/
structure TrancheYearRec where
  opening : ℚ
  interest : Option ℚ
  pik : Option ℚ
  balance : Option ℚ
  mandatory : ℚ
  sweep : ℚ
  total : ℚ
  draw : Option ℚ
deriving DecidableEq

/-- Context of one year of the waterfall: everything that is fixed across
the iterations of the fixed-point loop. -/
structure YearCtx where
  tranches : List Tranche
  revQ : Option Tranche
  balPrev : String → ℚ
  ebitda : ℚ
  ebit : ℚ
  capex : ℚ
  changeWc : ℚ
  firstPassTaxes : ℚ
  minCash : ℚ
  prevCash : ℚ
  yearIdx : ℕ

/-- Beginning balance of a tranche: `balances.get(prev_year, ...)`; the key
is always present, so this is the prior-year closing balance. -/
def bb (ctx : YearCtx) (t : Tranche) : ℚ := ctx.balPrev t.label

/-- Step 1, cash interest: recorded only when the beginning balance is
strictly positive (`debt.py` line 149). -/
def cashIntRec (ctx : YearCtx) (t : Tranche) : Option ℚ :=
  if 0 < bb ctx t then some (bb ctx t * cashRate t) else none

/-- Step 1, PIK interest: recorded only when the beginning balance is
strictly positive. -/
def pikIntRec (ctx : YearCtx) (t : Tranche) : Option ℚ :=
  if 0 < bb ctx t then some (bb ctx t * t.pikRate) else none

/-- Step 1 accumulator `total_cash_interest`. -/
def tci (ctx : YearCtx) : ℚ :=
  (ctx.tranches.map fun t => (cashIntRec ctx t).getD 0).sum

/-- Step 1 accumulator `total_pik_interest`. -/
def tpi (ctx : YearCtx) : ℚ :=
  (ctx.tranches.map fun t => (pikIntRec ctx t).getD 0).sum

/-- Step 2: balance after PIK capitalization, `beginning + pik_interest.get(year, 0)`
(applied to every tranche other than the chosen revolver). -/
def balAfterPik (ctx : YearCtx) (t : Tranche) : ℚ :=
  bb ctx t + (pikIntRec ctx t).getD 0

/-- Step 3: `initial_tax = abs(cash_flows[year].get("cash_taxes", 0))`. -/
def initialTaxAbs (ctx : YearCtx) : ℚ := absQ ctx.firstPassTaxes

/-- Step 3: the iteration tax rate, `initial_tax / ebit if ebit > 0 else 0.25`
(`debt.py` line 172 — note the hard-coded 0.25, not the deal rate). -/
def taxRateIter (ctx : YearCtx) : ℚ :=
  if 0 < ctx.ebit then initialTaxAbs ctx / ctx.ebit else 25 / 100

/-- Step 3: `pbt = ebit - (total_cash_interest + total_pik_interest)`. -/
def pbtIter (ctx : YearCtx) : ℚ := ctx.ebit - (tci ctx + tpi ctx)

/-- Step 3: `cash_taxes = max(0, pbt * tax_rate)`. -/
def taxesIter (ctx : YearCtx) : ℚ := max 0 (pbtIter ctx * taxRateIter ctx)

/-- Step 3: `cfads = ebitda - total_cash_interest - cash_taxes + capex + change_wc`. -/
def cfadsIter (ctx : YearCtx) : ℚ :=
  ctx.ebitda - tci ctx - taxesIter ctx + ctx.capex + ctx.changeWc

/-- Step 3: `available_for_debt = prev_year_cash + cfads - minimum_cash`. -/
def availCash (ctx : YearCtx) : ℚ := ctx.prevCash + cfadsIter ctx - ctx.minCash

/-- Non-revolver tranches in the waterfall order: Python
`sorted([t for t in tranches if not is_revolver], key=(seniority, label))`
(`sorted` is stable and ascending, which insertion sort reproduces). -/
def sortedNonRev (ctx : YearCtx) : List Tranche :=
  List.insertionSort (fun a b => trancheLe a b = true)
    (ctx.tranches.filter fun t => !(isRevolverType t.trancheType))

/-- Step 4: the `mandatory_by_tranche` entry read back with `.get(label, 0)`
— `original_size * schedule[year_idx]` clipped to the current (post-PIK)
balance when the schedule covers this year, else 0. -/
def mandDue (ctx : YearCtx) (t : Tranche) : ℚ :=
  if ctx.yearIdx < (getAmortizationSchedule t.amortSchedule).length then
    min (t.originalSize * (getAmortizationSchedule t.amortSchedule).getD ctx.yearIdx 0)
      (balAfterPik ctx t)
  else 0

/-- Step 5, per-tranche effect: the recorded mandatory payment (the whole
clipped amount in both the cash-sufficient and the shortfall branch; a
non-positive due amount is skipped). -/
def mandRec (ctx : YearCtx) (t : Tranche) : ℚ :=
  if 0 < mandDue ctx t then mandDue ctx t else 0

/-- Balance of a non-revolver tranche after mandatory amortization. -/
def bal1 (ctx : YearCtx) (t : Tranche) : ℚ := balAfterPik ctx t - mandRec ctx t

/-- Step 5, cash threading: walk the waterfall order; pay mandatory from
cash when it suffices, otherwise zero the cash and add the shortfall to the
revolver draw. -/
def step5Go (ctx : YearCtx) : List Tranche → ℚ → ℚ → ℚ × ℚ
  | [], r, d => (r, d)
  | t :: ts, r, d =>
    let due := mandDue ctx t
    if due ≤ 0 then step5Go ctx ts r d
    else if due ≤ r then step5Go ctx ts (r - due) d
    else step5Go ctx ts 0 (d + (due - max 0 r))

/-- Cash remaining after step 5. -/
def remaining5 (ctx : YearCtx) : ℚ :=
  (step5Go ctx (sortedNonRev ctx) (availCash ctx) 0).1

/-- Revolver draw needed to cover mandatory-amortization shortfalls. -/
def rcfDraw (ctx : YearCtx) : ℚ :=
  (step5Go ctx (sortedNonRev ctx) (availCash ctx) 0).2

/-- The revolver's prior-year balance, `balances.get(prev_year, 0)`. -/
def prevRcfBal (ctx : YearCtx) : ℚ :=
  match ctx.revQ with
  | some rv => ctx.balPrev rv.label
  | none => 0

/-- The revolver's `balances[year]` slot after the draw is applied
(`slotIn` is the slot value left over from the previous iteration of the
fixed-point loop; `none` on the first iteration). -/
def slotAfterDraw (ctx : YearCtx) (slotIn : Option ℚ) : Option ℚ :=
  if ctx.revQ.isSome ∧ 0 < rcfDraw ctx then some (prevRcfBal ctx + rcfDraw ctx)
  else slotIn

/-- Step 6: `current_rcf = balances.get(year, opening_rcf)`. -/
def currentRcf (ctx : YearCtx) (slotIn : Option ℚ) : ℚ :=
  (slotAfterDraw ctx slotIn).getD (prevRcfBal ctx)

/-- Guard of the revolver-repayment branch of step 6: sweep enabled (the
orchestrator always enables it), positive remaining cash, a revolver, no
draw this year, and a positive current revolver balance. -/
def rcfRepayCond (ctx : YearCtx) (slotIn : Option ℚ) : Prop :=
  0 < remaining5 ctx ∧ ctx.revQ.isSome ∧ rcfDraw ctx = 0 ∧ 0 < currentRcf ctx slotIn

instance (ctx : YearCtx) (slotIn : Option ℚ) : Decidable (rcfRepayCond ctx slotIn) := by
  unfold rcfRepayCond; infer_instance

/-- Step 6: revolver repayment from excess cash, capped at the current
revolver balance. -/
def rcfRepay (ctx : YearCtx) (slotIn : Option ℚ) : ℚ :=
  if rcfRepayCond ctx slotIn then min (remaining5 ctx) (currentRcf ctx slotIn) else 0

/-- The revolver slot after the step-6 repayment. -/
def slot6 (ctx : YearCtx) (slotIn : Option ℚ) : Option ℚ :=
  if rcfRepayCond ctx slotIn then some (currentRcf ctx slotIn - rcfRepay ctx slotIn)
  else slotAfterDraw ctx slotIn

/-- Cash remaining after the revolver repayment. -/
def remaining6 (ctx : YearCtx) (slotIn : Option ℚ) : ℚ :=
  remaining5 ctx - rcfRepay ctx slotIn

/-- Step 6, non-revolver sweep: walk the waterfall order with the remaining
cash (`break` once it is exhausted), sweep each positive balance up to the
cash left, and record who got how much. -/
def sweepGo (balFn : Tranche → ℚ) : List Tranche → ℚ → List (String × ℚ)
  | [], _ => []
  | t :: ts, r =>
    if r ≤ 0 then []
    else if 0 < balFn t then
      (t.label, min r (balFn t)) :: sweepGo balFn ts (r - min r (balFn t))
    else sweepGo balFn ts r

/-- The sweep assignments of this iteration (empty when step 6 is skipped
because no cash remained after step 5). -/
def sweeps (ctx : YearCtx) (slotIn : Option ℚ) : List (String × ℚ) :=
  if 0 < remaining5 ctx then sweepGo (bal1 ctx) (sortedNonRev ctx) (remaining6 ctx slotIn)
  else []

/-- Sweep received by one tranche. -/
def sweepOfT (ctx : YearCtx) (slotIn : Option ℚ) (t : Tranche) : ℚ :=
  lookupD (sweeps ctx slotIn) t.label 0

/-- Closing balance of a non-revolver tranche. -/
def bal2 (ctx : YearCtx) (slotIn : Option ℚ) (t : Tranche) : ℚ :=
  bal1 ctx t - sweepOfT ctx slotIn t

/-- Step 7: if the revolver saw no activity its slot is filled with the
prior-year balance. -/
def slot7 (ctx : YearCtx) (slotIn : Option ℚ) : Option ℚ :=
  match ctx.revQ with
  | some rv =>
    match slot6 ctx slotIn with
    | none => some (ctx.balPrev rv.label)
    | some v => some v
  | none => slot6 ctx slotIn

/-- The revolver closing balance read back for the convergence check,
`balances.get(year, 0)`. -/
def rcfClosingVal (ctx : YearCtx) (slotIn : Option ℚ) : ℚ :=
  (slot7 ctx slotIn).getD 0

/-- The per-year record of one tranche at the end of an iteration (after
step 8 has overwritten every `total` with `mandatory + sweep`).  The first
branch is the chosen revolver (`tranche == revolver_tranche`, dataclass
equality); the second is a revolver-typed tranche that was not chosen
(step 2 still applies to it but it takes no payments); the third is the
ordinary non-revolver pipeline. -/
def recOf (ctx : YearCtx) (slotIn : Option ℚ) (t : Tranche) : TrancheYearRec :=
  if ctx.revQ = some t then
    { opening := bb ctx t
      interest := cashIntRec ctx t
      pik := pikIntRec ctx t
      balance := slot7 ctx slotIn
      mandatory := 0
      sweep := rcfRepay ctx slotIn
      total := rcfRepay ctx slotIn
      draw := if 0 < rcfDraw ctx then some (rcfDraw ctx) else none }
  else if isRevolverType t.trancheType then
    { opening := bb ctx t
      interest := cashIntRec ctx t
      pik := pikIntRec ctx t
      balance := some (balAfterPik ctx t)
      mandatory := 0
      sweep := 0
      total := 0
      draw := none }
  else
    { opening := bb ctx t
      interest := cashIntRec ctx t
      pik := pikIntRec ctx t
      balance := some (bal2 ctx slotIn t)
      mandatory := mandRec ctx t
      sweep := sweepOfT ctx slotIn t
      total := mandRec ctx t + sweepOfT ctx slotIn t
      draw := none }

/-- Step 9 accumulator: revolver totals are subtracted, the rest added
(`debt.py` lines 277–284). -/
def totalCashUsed (ctx : YearCtx) (slotIn : Option ℚ) : ℚ :=
  (ctx.tranches.map fun t =>
    if isRevolverType t.trancheType then -(recOf ctx slotIn t).total
    else (recOf ctx slotIn t).total).sum

/-- Step 9: `cash_balance[year] = prev_year_cash + cfads - total_cash_used`. -/
def endingCashIter (ctx : YearCtx) (slotIn : Option ℚ) : ℚ :=
  ctx.prevCash + cfadsIter ctx - totalCashUsed ctx slotIn

/-- Result of one iteration of the fixed-point loop. -/
structure IterOut where
  recs : List (String × TrancheYearRec)
  totalCashInterest : ℚ
  totalPikInterest : ℚ
  taxRateUsed : ℚ
  taxesUsed : ℚ
  pbt : ℚ
  cfads : ℚ
  available : ℚ
  endingCash : ℚ
  rcfClosing : ℚ
deriving DecidableEq

/-- One full iteration of the per-year loop of
`DebtScheduleTracker.calculate_schedules` (steps 1–9). -/
def iterStep (ctx : YearCtx) (slotIn : Option ℚ) : IterOut :=
  { recs := ctx.tranches.map fun t => (t.label, recOf ctx slotIn t)
    totalCashInterest := tci ctx
    totalPikInterest := tpi ctx
    taxRateUsed := taxRateIter ctx
    taxesUsed := taxesIter ctx
    pbt := pbtIter ctx
    cfads := cfadsIter ctx
    available := availCash ctx
    endingCash := endingCashIter ctx slotIn
    rcfClosing := rcfClosingVal ctx slotIn }

/-- The fixed-point loop (`for iteration in range(max_iterations)`): run an
iteration, break immediately when there is no revolver, break when the
revolver balance moved by less than the 0.01 threshold, and otherwise loop
with the revolver slot and previous balance carried over.  Returns the last
iteration and the number of iterations executed. -/
def runIters (ctx : YearCtx) : ℕ → Option ℚ → ℚ → IterOut × ℕ
  | 0, slotIn, _ => (iterStep ctx slotIn, 1)
  | Nat.succ n, slotIn, prevRev =>
    if ctx.revQ.isNone then (iterStep ctx slotIn, 1)
    else if absQ ((iterStep ctx slotIn).rcfClosing - prevRev) < 1 / 100 then
      (iterStep ctx slotIn, 1)
    else if n = 0 then (iterStep ctx slotIn, 1)
    else
      ((runIters ctx n (some (iterStep ctx slotIn).rcfClosing)
          (iterStep ctx slotIn).rcfClosing).1,
        (runIters ctx n (some (iterStep ctx slotIn).rcfClosing)
          (iterStep ctx slotIn).rcfClosing).2 + 1)

/-- Per-year output row of the waterfall: the tranche records, the two
interest totals stored in `total_interest_by_year` / `cash_interest_by_year`,
the ending cash, and (for the theorems) the iteration-local quantities of
the final iteration together with the context values they came from. -/
structure YearOut where
  year : ℕ
  recs : List (String × TrancheYearRec)
  totalInterest : ℚ
  cashInterest : ℚ
  endingCash : ℚ
  cfads : ℚ
  available : ℚ
  taxRateUsed : ℚ
  taxesUsed : ℚ
  pbt : ℚ
  ebit : ℚ
  firstPassTaxAbs : ℚ
  prevCash : ℚ
  iterations : ℕ
deriving DecidableEq

/-- The chosen revolver: the first tranche whose type is revolver-like
(`debt.py` lines 104–111). -/
def findRevolver (ts : List Tranche) : Option Tranche :=
  ts.find? fun t => isRevolverType t.trancheType

/-- Build the context of one year. -/
def mkCtx (tranches : List Tranche) (revQ : Option Tranche) (minCash : ℚ)
    (balPrev : String → ℚ) (prevCash : ℚ) (idx : ℕ) (cf : YearCF) : YearCtx :=
  { tranches := tranches
    revQ := revQ
    balPrev := balPrev
    ebitda := cf.ebitda
    ebit := cf.ebit
    capex := cf.capex
    changeWc := cf.changeWc
    firstPassTaxes := cf.cashTaxes
    minCash := minCash
    prevCash := prevCash
    yearIdx := idx }

/-- Assemble the per-year output row from the final iteration. -/
def mkYearOut (y : ℕ) (cf : YearCF) (prevCash : ℚ) (r : IterOut) (iters : ℕ) : YearOut :=
  { year := y
    recs := r.recs
    totalInterest := r.totalCashInterest + r.totalPikInterest
    cashInterest := r.totalCashInterest
    endingCash := r.endingCash
    cfads := r.cfads
    available := r.available
    taxRateUsed := r.taxRateUsed
    taxesUsed := r.taxesUsed
    pbt := r.pbt
    ebit := cf.ebit
    firstPassTaxAbs := absQ cf.cashTaxes
    prevCash := prevCash
    iterations := iters }

/-- Balances carried into the next year: each tranche's recorded closing
balance (every tranche writes `balances[year]` each year). -/
def nextBalFn (r : IterOut) (balPrev : String → ℚ) : String → ℚ :=
  fun l =>
    match r.recs.find? (fun p => p.1 == l) with
    | some p => p.2.balance.getD 0
    | none => balPrev l

/-- Starting value of `prev_revolver_balance` for a year: the revolver's
prior-year balance, 0 when there is no revolver (`debt.py` lines 134–137). -/
def initRev (revQ : Option Tranche) (balPrev : String → ℚ) : ℚ :=
  match revQ with
  | some rv => balPrev rv.label
  | none => 0

/-- The year loop of `calculate_schedules`: years in ascending order, each
running the fixed-point loop, threading the prior-year balances and the
prior ending cash. -/
def calcYears (tranches : List Tranche) (revQ : Option Tranche) (minCash : ℚ) :
    List (ℕ × YearCF) → ℕ → (String → ℚ) → ℚ → List YearOut
  | [], _, _, _ => []
  | (y, cf) :: rest, idx, balPrev, prevCash =>
    let ctx := mkCtx tranches revQ minCash balPrev prevCash idx cf
    let p := runIters ctx 10 none (initRev revQ balPrev)
    mkYearOut y cf prevCash p.1 p.2 ::
      calcYears tranches revQ minCash rest (idx + 1) (nextBalFn p.1 balPrev) p.1.endingCash

/-- Initial balances: `balances[first_year - 1] = starting_balance`
(the drawn amount) for every tranche. -/
def initBalFn (tranches : List Tranche) : String → ℚ :=
  fun l => lookupD (tranches.map fun t => (t.label, t.drawnAmount)) l 0

/-- Model of `DebtScheduleTracker.calculate_schedules` with the orchestrator's
arguments (sweep enabled, 10 iterations, 0.01 threshold): the prior-year
cash starts at `minimum_cash` (`debt.py` line 123). -/
def calcSchedules (tranches : List Tranche) (cfs : List (ℕ × YearCF)) (minCash : ℚ) :
    List YearOut :=
  calcYears tranches (findRevolver tranches) minCash cfs 0 (initBalFn tranches) minCash

/-- Total drawn debt (`calculate_sources_uses`, sources side). -/
def totalDebtDrawn (ts : List Tranche) : ℚ := (ts.map Tranche.drawnAmount).sum

/-- Total financing fees (`calculate_sources_uses`, uses side). -/
def totalFinancingFees (ts : List Tranche) : ℚ := (ts.map Tranche.financingFeeAmount).sum

/-- Total uses (`calculate_sources_uses`): purchase price, then transaction
fees, financing fees and minimum cash, each included only when strictly
positive (the source only inserts those dict entries when `> 0`). -/
def totalUsesOf (inp : Input) (price : ℚ) : ℚ :=
  let tf := price * (inp.entryFeePct / 100)
  let ff := totalFinancingFees inp.tranches
  price + (if 0 < tf then tf else 0) + (if 0 < ff then ff else 0) +
    (if 0 < inp.minCash then inp.minCash else 0)

/-- Equity as plug: `total_uses - total_debt` (the orchestrator passes no
explicit equity). -/
def entryEquityOf (inp : Input) (price : ℚ) : ℚ :=
  totalUsesOf inp price - totalDebtDrawn inp.tranches

/-- Python `max(annual_cash_flows.keys())` (`lbo.py` line 132); the keys of
the engine-built table are ascending years of equal digit count, for which
the string maximum is the numeric maximum. -/
def maxKeys (l : List (ℕ × YearCF)) : ℕ := (l.map Prod.fst).foldl max 0

/-- Row of the cash-flow table for a year (`annual_cash_flows[year]`; the
key is always present where the engine uses it). -/
def lookupCF (l : List (ℕ × YearCF)) (y : ℕ) : YearCF :=
  match l.find? (fun p => p.1 == y) with
  | some p => p.2
  | none =>
    { ebitda := 0, ebit := 0, dAndA := 0, cashTaxes := 0, capex := 0, changeWc := 0,
      unleveredFcf := 0, cashInterest := 0, fcf := 0, cfads := 0 }

/-- The exit-EBITDA fallback loop (`lbo.py` lines 139–144): first strictly
positive EBITDA along the list (to be called on the years in descending
order), else the default. -/
def fallbackEbitda : List (ℕ × YearCF) → ℚ → ℚ
  | [], e => e
  | (_, cf) :: rest, e => if 0 < cf.ebitda then cf.ebitda else fallbackEbitda rest e

/-- Exit-EBITDA selection (`lbo.py` lines 136–144): the final year's
EBITDA; only when that is exactly zero, the most recent year with strictly
positive EBITDA (keeping 0 when none exists). -/
def selectExitEbitda (cfs : List (ℕ × YearCF)) (finalY : ℕ) : ℚ :=
  let e0 := (lookupCF cfs finalY).ebitda
  if e0 = 0 then fallbackEbitda cfs.reverse e0 else e0

/-- Result of `_run_complete_lbo_analysis` restricted to the quantities the
claims are about (MOIC is kept as an exact rational; the IRR, a real
power, is derived from it by `irrOf`). -/
structure Analysis where
  purchasePrice : ℚ
  totalUses : ℚ
  entryEquity : ℚ
  cashFlows : List (ℕ × YearCF)
  years : List YearOut
  finalYear : ℕ
  finalCash : ℚ
  finalDebt : ℚ
  exitEbitda : ℚ
  exitEV : ℚ
  exitFees : ℚ
  exitProceeds : ℚ
  moic : ℚ
  holdingPeriod : ℤ
deriving DecidableEq

/-- Model of `_run_complete_lbo_analysis` (`lbo.py`): sources & uses, first-pass
cash flows, the debt waterfall, the interest re-tax pass, and the exit /
returns computation. -/
def runComplete (inp : Input) (price : ℚ) : Analysis :=
  let equity := entryEquityOf inp price
  let cfs := calcAnnualCashFlows inp
  let yos := calcSchedules inp.tranches cfs inp.minCash
  let tiSched := yos.map fun yo => (yo.year, yo.totalInterest)
  let ciSched := yos.map fun yo => (yo.year, yo.cashInterest)
  let cfs2 := updateWithInterest inp.taxRate cfs tiSched ciSched
  let finalY := maxKeys cfs2
  let cashBal := yos.map fun yo => (yo.year, yo.endingCash)
  let finalCash := lookupDNat cashBal finalY 0
  let finalDebt : ℚ :=
    match yos.getLast? with
    | some yo => (yo.recs.map fun p => p.2.balance.getD 0).sum
    | none => 0
  let exitE := selectExitEbitda cfs2 finalY
  let ev := exitE * inp.exitMultiple
  let fees := ev * (inp.exitFeePct / 100)
  let proceeds := ev + finalCash - finalDebt - fees
  let hp : ℤ := (inp.exitYear : ℤ) - (inp.dealYear : ℤ)
  { purchasePrice := price
    totalUses := totalUsesOf inp price
    entryEquity := equity
    cashFlows := cfs2
    years := yos
    finalYear := finalY
    finalCash := finalCash
    finalDebt := finalDebt
    exitEbitda := exitE
    exitEV := ev
    exitFees := fees
    exitProceeds := proceeds
    moic := if 0 < equity then proceeds / equity else 0
    holdingPeriod := hp }

/-- The complete analysis of an input with the purchase price the extractor
derives. -/
def analysisOf (inp : Input) : Analysis := runComplete inp (purchasePriceOf inp)

/-- Model of `run_lbo_analysis` (`lbo.py`): the two explicit validations and, for an
empty forecast horizon, the `IndexError` that the blanket handler converts
into a failure result; otherwise the successful analysis. -/
def runLBO (inp : Input) : Except String Analysis :=
  if inp.ebitda.isNone then
    Except.error "No EBITDA data found - cannot run LBO analysis"
  else if purchasePriceOf inp ≤ 0 then
    Except.error "No purchase price calculated - check entry multiple and EBITDA"
  else if horizonYears inp = [] then
    Except.error "list index out of range"
  else Except.ok (analysisOf inp)

/-- IRR formula of `lbo.py` line 158:
`(moic ** (1 / holding_period)) - 1 if moic > 0 and holding_period > 0 else 0`. -/
noncomputable def irrOf (moic : ℚ) (h : ℤ) : ℝ :=
  if 0 < moic ∧ 0 < h then (moic : ℝ) ^ ((1 : ℝ) / (h : ℝ)) - 1 else 0

/-- Row of the waterfall output for a given year. -/
def yearRow (a : Analysis) (y : ℕ) : Option YearOut :=
  a.years.find? fun yo => yo.year == y

/-- Record of a given tranche in a given year of the waterfall output. -/
def recRow (a : Analysis) (y : ℕ) (l : String) : Option TrancheYearRec :=
  (yearRow a y).bind fun yo => (yo.recs.find? fun p => p.1 == l).map Prod.snd

/-!  Concrete inputs used by the counterexamples, the failing-input
evaluations and the witnesses. -/

/-- Scenario A of the specification: no tranches, 8× entry and exit,
tax 0.25, EBITDA 25/28/31/34/37 over 2024–2028, everything else absent. -/
def scenarioAEbitda : ℕ → ℚ := fun y =>
  if y = 2024 then 25 else if y = 2025 then 28 else if y = 2026 then 31
  else if y = 2027 then 34 else if y = 2028 then 37 else 0

/-- Scenario A input (deal 2024, exit 2028, fees 0, minimum cash 0). -/
def scenarioA : Input :=
  { ebitda := some scenarioAEbitda, ebit := none, dAndA := none, capex := none,
    workingCapital := none, tranches := [], entryMultiple := 8, exitMultiple := 8,
    entryFeePct := 0, exitFeePct := 0, taxRate := 25 / 100, minCash := 0,
    dealYear := 2024, exitYear := 2028 }

/-- A bullet-free term loan amortizing 50%/50%, zero coupon, seniority 1. -/
def drawTL : Tranche :=
  { label := "TL", trancheType := "bond", originalSize := 100, interestRate := 0,
    interestMargin := 0, pikRate := 0, amortSchedule := "50/50", financingFees := 0,
    repaymentSeniority := 1, percentageDrawn := 1 }

/-- An undrawn revolver, seniority 99. -/
def drawRCF : Tranche :=
  { label := "RCF", trancheType := "revolver", originalSize := 30, interestRate := 0,
    interestMargin := 0, pikRate := 0, amortSchedule := "", financingFees := 0,
    repaymentSeniority := 99, percentageDrawn := 0 }

/-- EBITDA for the revolver-draw deal: 10 in the deal year, then 40 and 40. -/
def drawEbitda : ℕ → ℚ := fun y =>
  if y = 2024 then 10 else if y = 2025 then 40 else if y = 2026 then 40 else 0

/-- A deal in which year-2025 mandatory amortization (50) exceeds the
available cash (CFADS 30), so the revolver is drawn for the 20 shortfall. -/
def drawInput : Input :=
  { ebitda := some drawEbitda, ebit := none, dAndA := none, capex := none,
    workingCapital := none, tranches := [drawTL, drawRCF], entryMultiple := 8,
    exitMultiple := 8, entryFeePct := 0, exitFeePct := 0, taxRate := 1 / 4, minCash := 0,
    dealYear := 2024, exitYear := 2026 }

/-- EBITDA with a zero-EBIT forecast year (2025). -/
def zeroEbitEbitda : ℕ → ℚ := fun y =>
  if y = 2024 then 10 else if y = 2025 then 0 else if y = 2026 then 12 else 0

/-- A deal with tax rate 0.30 and a forecast year with EBIT = 0, exposing
the hard-coded 0.25 fallback of the iteration tax rate. -/
def zeroEbitInput : Input :=
  { ebitda := some zeroEbitEbitda, ebit := none, dAndA := none, capex := none,
    workingCapital := none, tranches := [], entryMultiple := 8, exitMultiple := 8,
    entryFeePct := 0, exitFeePct := 0, taxRate := 3 / 10, minCash := 0,
    dealYear := 2024, exitYear := 2026 }

/-- EBITDA positive only in the deal year. -/
def degenerateEbitda : ℕ → ℚ := fun y => if y = 2024 then 25 else 0

/-- A deal whose forecast EBITDA is zero in every year while the deal-year
EBITDA prices the deal; minimum cash 10 makes the exit proceeds positive. -/
def degenerateInput : Input :=
  { ebitda := some degenerateEbitda, ebit := none, dAndA := none, capex := none,
    workingCapital := none, tranches := [], entryMultiple := 8, exitMultiple := 8,
    entryFeePct := 0, exitFeePct := 0, taxRate := 1 / 4, minCash := 10,
    dealYear := 2024, exitYear := 2028 }

/-- A tranche whose amortization schedule string has a segment that does
not parse as a number. -/
def badAmortTranche : Tranche :=
  { label := "TL2", trancheType := "bond", originalSize := 50, interestRate := 0,
    interestMargin := 0, pikRate := 0, amortSchedule := "abc/10", financingFees := 0,
    repaymentSeniority := 1, percentageDrawn := 1 }

/-- A deal containing the non-parseable amortization schedule. -/
def badAmortInput : Input :=
  { ebitda := some drawEbitda, ebit := none, dAndA := none, capex := none,
    workingCapital := none, tranches := [badAmortTranche], entryMultiple := 8,
    exitMultiple := 8, entryFeePct := 0, exitFeePct := 0, taxRate := 1 / 4, minCash := 0,
    dealYear := 2024, exitYear := 2026 }

/-- EBITDA 10 in the deal year, 20 in the single forecast year. -/
def undrawnEbitda : ℕ → ℚ := fun y =>
  if y = 2024 then 10 else if y = 2025 then 20 else 0

/-- A deal whose only tranche is an undrawn revolver (opening balance 0). -/
def undrawnRevolverInput : Input :=
  { ebitda := some undrawnEbitda, ebit := none, dAndA := none, capex := none,
    workingCapital := none, tranches := [drawRCF], entryMultiple := 8, exitMultiple := 8,
    entryFeePct := 0, exitFeePct := 0, taxRate := 1 / 4, minCash := 0,
    dealYear := 2024, exitYear := 2025 }

set_option maxRecDepth 16000 in
/-- C1: cash mass balance.  Evaluating the waterfall at a concrete deal in
which the revolver is drawn to fund a mandatory-amortization shortfall: in
year 2025 the recorded prior cash is 0, CFADS is 30, the non-revolver
principal total is 50 and the revolver net draw is 20, yet the recorded
ending cash is −20 — it misses the claimed value 0 + 30 − 50 + 20 = 0 by
20, far beyond the 0.01 tolerance.  (Step 8 of the source overwrites the
revolver's −draw principal total with `mandatory + sweep = 0`, so step 9
never adds the draw back.) -/
theorem C1_mass_balance_fails_on_draw :
    (yearRow (analysisOf drawInput) 2025).map
        (fun yo => (yo.prevCash, yo.cfads, yo.endingCash)) = some (0, 30, -20) ∧
    (recRow (analysisOf drawInput) 2025 "TL").map (fun r => r.total) = some 50 ∧
    (recRow (analysisOf drawInput) 2025 "RCF").map (fun r => (r.total, r.draw)) =
      some (0, some 20) ∧
    1 / 100 < absQ ((-20 : ℚ) - (0 + 30 - 50 + 20)) := by
  with_unfolding_all decide

set_option maxRecDepth 16000 in
/-- C2 counterexample: in a deal with tax rate 0.30, the iteration-local
tax rate used in a year with EBIT = 0 is the hard-coded 0.25 of
`debt.py` line 172, not the deal's rate — the claim's "t_iter equals the
deal's tax rate t when EBIT ≤ 0, for every deal" is false. -/
theorem C2_fallback_rate_counterexample :
    zeroEbitInput.taxRate = 3 / 10 ∧
    (yearRow (analysisOf zeroEbitInput) 2025).map
        (fun yo => (yo.ebit, yo.taxRateUsed)) = some (0, 1 / 4) ∧
    (1 / 4 : ℚ) ≠ 3 / 10 := by
  with_unfolding_all decide

set_option maxRecDepth 16000 in
/-- C3 counterexample: on the literal Scenario A input the engine's ending
2028 cash is 97.5 (not the claimed 115.5) and its MOIC is 1.9675 (not the
claimed 2.0575): the forecast horizon is [deal_year+1 .. exit_year], so the
deal-year 2024 cash flow the claim includes never accrues. -/
theorem C3_scenarioA_counterexample :
    (analysisOf scenarioA).finalCash = 195 / 2 ∧ (195 / 2 : ℚ) ≠ 231 / 2 ∧
    (analysisOf scenarioA).moic = 787 / 400 ∧ (787 / 400 : ℚ) ≠ 823 / 400 := by
  with_unfolding_all decide

set_option maxRecDepth 16000 in
/-- C5 counterexample: a deal whose forecast EBITDA is nowhere positive
(the deal-year EBITDA 25 prices the deal, minimum cash is 10).  The
returned MOIC is 1/21, not 0, and the IRR is negative, not 0 — exit
proceeds degrade to final cash − final debt instead of being forced to
zero returns. -/
theorem C5_degenerate_returns_counterexample :
    ((analysisOf degenerateInput).cashFlows.all fun p => decide (p.2.ebitda ≤ 0)) = true ∧
    (analysisOf degenerateInput).exitEbitda = 0 ∧
    (analysisOf degenerateInput).holdingPeriod = 4 ∧
    (analysisOf degenerateInput).moic = 1 / 21 ∧
    (analysisOf degenerateInput).moic ≠ 0 ∧
    irrOf (1 / 21) 4 ≠ 0 := by
  refine ⟨?_, ?_, ?_, ?_, ?_, ?_⟩
  · with_unfolding_all decide
  · with_unfolding_all decide
  · with_unfolding_all decide
  · with_unfolding_all decide
  · with_unfolding_all decide
  · have h1 : irrOf (1 / 21) 4 = ((1 : ℝ) / 21) ^ ((1 : ℝ) / 4) - 1 := by
      unfold irrOf
      rw [if_pos ⟨by norm_num, by norm_num⟩]
      norm_num
    have h2 : ((1 : ℝ) / 21) ^ ((1 : ℝ) / 4) < 1 :=
      Real.rpow_lt_one (by norm_num) (by norm_num) (by norm_num)
    rw [h1]
    intro h
    rw [sub_eq_zero] at h
    rw [h] at h2
    exact absurd h2 (lt_irrefl 1)

set_option maxRecDepth 16000 in
/-- C6 counterexample: an amortization schedule string with a segment that
does not parse ("abc/10") produces no binder error: the segment parses to
0, the analysis returns a success result (an `ok`, not an `error`), and the 10% segment is applied
in the second forecast year (mandatory 5 on the size-50 tranche). -/
theorem C6_bad_amortization_counterexample :
    getAmortizationSchedule "abc/10" = [0, 1 / 10] ∧
    (runLBO badAmortInput).toOption = some (analysisOf badAmortInput) ∧
    (recRow (analysisOf badAmortInput) 2026 "TL2").map (fun r => r.mandatory) = some 5 := by
  with_unfolding_all decide

set_option maxRecDepth 16000 in
/-- C7 counterexample: for a tranche whose opening balance is zero (an
undrawn revolver), the waterfall records no cash-interest entry and no PIK
entry for the year (the source writes them only when
`beginning_balance > 0`), refuting "every tranche has a recorded cash
interest entry and a recorded PIK interest entry". -/
theorem C7_zero_opening_no_interest_entry :
    (recRow (analysisOf undrawnRevolverInput) 2025 "RCF").map
        (fun r => (r.opening, r.interest, r.pik, r.balance)) =
      some (0, none, none, some 0) := by
  with_unfolding_all decide

set_option maxRecDepth 16000 in
/-- C3 (amended): on the literal Scenario A input the analysis returns
purchase price 200, entry equity 200, zero interest in every forecast
year, recorded cash taxes of −0.25·EBITDA(y) for the forecast years
2025–2028, ending 2028 cash 97.5 (the horizon is
[deal_year+1 .. exit_year], so 2024 contributes no cash flow), exit
enterprise value 296, exit proceeds 393.5, MOIC 1.9675, and
IRR = 1.9675^(1/4) − 1 ≈ 0.1843 (strictly between 0.184 and 0.185). -/
theorem C3_scenarioA_amended :
    (analysisOf scenarioA).purchasePrice = 200 ∧
    (analysisOf scenarioA).entryEquity = 200 ∧
    ((analysisOf scenarioA).years.map fun yo => (yo.year, yo.totalInterest)) =
      [(2025, 0), (2026, 0), (2027, 0), (2028, 0)] ∧
    ((analysisOf scenarioA).cashFlows.map fun p => (p.1, p.2.cashTaxes)) =
      [(2025, -7), (2026, -31 / 4), (2027, -17 / 2), (2028, -37 / 4)] ∧
    (analysisOf scenarioA).finalCash = 195 / 2 ∧
    (analysisOf scenarioA).exitEV = 296 ∧
    (analysisOf scenarioA).exitProceeds = 787 / 2 ∧
    (analysisOf scenarioA).moic = 787 / 400 ∧
    (analysisOf scenarioA).holdingPeriod = 4 ∧
    irrOf (analysisOf scenarioA).moic (analysisOf scenarioA).holdingPeriod =
      ((787 : ℝ) / 400) ^ ((1 : ℝ) / 4) - 1 ∧
    (184 / 1000 : ℝ) < irrOf (analysisOf scenarioA).moic (analysisOf scenarioA).holdingPeriod ∧
    irrOf (analysisOf scenarioA).moic (analysisOf scenarioA).holdingPeriod < 185 / 1000 := by
  have hm : (analysisOf scenarioA).moic = 787 / 400 := by with_unfolding_all decide
  have hh : (analysisOf scenarioA).holdingPeriod = 4 := by with_unfolding_all decide
  have hq : (analysisOf scenarioA).purchasePrice = 200 ∧
      (analysisOf scenarioA).entryEquity = 200 ∧
      ((analysisOf scenarioA).years.map fun yo => (yo.year, yo.totalInterest)) =
        [(2025, 0), (2026, 0), (2027, 0), (2028, 0)] ∧
      ((analysisOf scenarioA).cashFlows.map fun p => (p.1, p.2.cashTaxes)) =
        [(2025, -7), (2026, -31 / 4), (2027, -17 / 2), (2028, -37 / 4)] ∧
      (analysisOf scenarioA).finalCash = 195 / 2 ∧
      (analysisOf scenarioA).exitEV = 296 ∧
      (analysisOf scenarioA).exitProceeds = 787 / 2 := by
    with_unfolding_all decide
  have hirr : irrOf (787 / 400) 4 = ((787 : ℝ) / 400) ^ ((1 : ℝ) / 4) - 1 := by
    unfold irrOf
    rw [if_pos ⟨by norm_num, by norm_num⟩]
    norm_num
  have hx0 : (0 : ℝ) ≤ ((787 : ℝ) / 400) ^ ((1 : ℝ) / 4) :=
    Real.rpow_nonneg (by norm_num) _
  have hx4 : (((787 : ℝ) / 400) ^ ((1 : ℝ) / 4)) ^ (4 : ℕ) = 787 / 400 := by
    rw [← Real.rpow_natCast (((787 : ℝ) / 400) ^ ((1 : ℝ) / 4)) 4,
      ← Real.rpow_mul (by norm_num : (0 : ℝ) ≤ 787 / 400)]
    norm_num
  have hlow : (1184 / 1000 : ℝ) < ((787 : ℝ) / 400) ^ ((1 : ℝ) / 4) := by
    by_contra hcon
    push_neg at hcon
    have h4 := pow_le_pow_left₀ hx0 hcon 4
    rw [hx4] at h4
    norm_num at h4
  have hhigh : ((787 : ℝ) / 400) ^ ((1 : ℝ) / 4) < 1185 / 1000 := by
    by_contra hcon
    push_neg at hcon
    have h4 := pow_le_pow_left₀ (by norm_num : (0 : ℝ) ≤ 1185 / 1000) hcon 4
    rw [hx4] at h4
    norm_num at h4
  obtain ⟨h1, h2, h3, h4, h5, h6, h7⟩ := hq
  refine ⟨h1, h2, h3, h4, h5, h6, h7, hm, hh, ?_, ?_, ?_⟩
  · rw [hm, hh]; exact hirr
  · rw [hm, hh, hirr]; linarith
  · rw [hm, hh, hirr]; linarith

/-!  General lemmas about the fixed-point loop and the year fold. -/

/-- Whatever the fuel, the loop returns the output of `iterStep` on the
same context at some slot value (the last iteration's values are used). -/
theorem runIters_shape (ctx : YearCtx) :
    ∀ (fuel : ℕ) (slotIn : Option ℚ) (prevRev : ℚ),
      ∃ s, (runIters ctx fuel slotIn prevRev).1 = iterStep ctx s := by
  intro fuel
  induction fuel with
  | zero => exact fun slotIn _ => ⟨slotIn, rfl⟩
  | succ n ih =>
    intro slotIn prevRev
    unfold runIters
    split_ifs with h1 h2 h3
    · exact ⟨slotIn, rfl⟩
    · exact ⟨slotIn, rfl⟩
    · exact ⟨slotIn, rfl⟩
    · exact ih (some (iterStep ctx slotIn).rcfClosing) (iterStep ctx slotIn).rcfClosing

/-- The loop executes at most `max 1 fuel` iterations. -/
theorem runIters_count_le (ctx : YearCtx) :
    ∀ (fuel : ℕ) (slotIn : Option ℚ) (prevRev : ℚ),
      (runIters ctx fuel slotIn prevRev).2 ≤ max 1 fuel := by
  intro fuel
  induction fuel with
  | zero => exact fun _ _ => le_refl 1
  | succ n ih =>
    intro slotIn prevRev
    unfold runIters
    split_ifs with h1 h2 h3
    · simp
    · simp
    · simp
    · have h := ih (some (iterStep ctx slotIn).rcfClosing) (iterStep ctx slotIn).rcfClosing
      have h4 : max 1 n = n := Nat.max_eq_right (by omega)
      have h5 : max 1 (n + 1) = n + 1 := Nat.max_eq_right (by omega)
      rw [h4] at h
      rw [h5]
      exact Nat.succ_le_succ h

/-- Without a revolver the loop exits after exactly one iteration. -/
theorem runIters_count_norev (ctx : YearCtx) (h : ctx.revQ = none) :
    ∀ (fuel : ℕ) (slotIn : Option ℚ) (prevRev : ℚ),
      (runIters ctx fuel slotIn prevRev).2 = 1 := by
  intro fuel slotIn prevRev
  cases fuel with
  | zero => rfl
  | succ n =>
    unfold runIters
    rw [if_pos (by rw [h]; rfl)]

/-- Every row of the year fold is the assembled output of a 10-fuel run of
the fixed-point loop on a context built from the same tranches, revolver
and minimum cash. -/
theorem calcYears_mem (tranches : List Tranche) (revQ : Option Tranche) (minCash : ℚ) :
    ∀ (cfs : List (ℕ × YearCF)) (idx : ℕ) (balPrev : String → ℚ) (prevCash : ℚ)
      (yo : YearOut), yo ∈ calcYears tranches revQ minCash cfs idx balPrev prevCash →
      ∃ (y : ℕ) (cf : YearCF) (idx2 : ℕ) (balPrev2 : String → ℚ) (prevCash2 : ℚ),
        yo = mkYearOut y cf prevCash2
          (runIters (mkCtx tranches revQ minCash balPrev2 prevCash2 idx2 cf) 10 none
            (initRev revQ balPrev2)).1
          (runIters (mkCtx tranches revQ minCash balPrev2 prevCash2 idx2 cf) 10 none
            (initRev revQ balPrev2)).2 := by
  intro cfs
  induction cfs with
  | nil =>
    intro idx balPrev prevCash yo h
    exact absurd h (List.not_mem_nil yo)
  | cons hd tl ih =>
    intro idx balPrev prevCash yo h
    obtain ⟨y, cf⟩ := hd
    rw [calcYears] at h
    rcases List.mem_cons.mp h with h1 | h2
    · exact ⟨y, cf, idx, balPrev, prevCash, h1⟩
    · exact ih _ _ _ _ h2

/-- C8: the Cash Flow Re-taxer is idempotent — re-running
`update_with_interest` on its own output with the same two interest
schedules reproduces the same table exactly (it reads only EBIT, EBITDA,
CapEx and ΔWC, which it does not modify). -/
theorem C8_retax_idempotent (taxRate : ℚ) (cfs : List (ℕ × YearCF))
    (ti ci : List (ℕ × ℚ)) :
    updateWithInterest taxRate (updateWithInterest taxRate cfs ti ci) ti ci =
      updateWithInterest taxRate cfs ti ci := by
  unfold updateWithInterest
  rw [List.map_map]
  exact List.map_congr_left fun p _ => rfl

/-- Opening balance stored in every branch of the per-tranche record. -/
theorem recOf_opening (ctx : YearCtx) (slotIn : Option ℚ) (t : Tranche) :
    (recOf ctx slotIn t).opening = bb ctx t := by
  unfold recOf
  split_ifs <;> rfl

/-- Interest entry stored in every branch of the per-tranche record. -/
theorem recOf_interest (ctx : YearCtx) (slotIn : Option ℚ) (t : Tranche) :
    (recOf ctx slotIn t).interest = cashIntRec ctx t := by
  unfold recOf
  split_ifs <;> rfl

/-- PIK entry stored in every branch of the per-tranche record. -/
theorem recOf_pik (ctx : YearCtx) (slotIn : Option ℚ) (t : Tranche) :
    (recOf ctx slotIn t).pik = pikIntRec ctx t := by
  unfold recOf
  split_ifs <;> rfl

/-- When a revolver exists its per-year balance slot is always filled by
the end of an iteration (step 7 guarantees it). -/
theorem slot7_isSome (ctx : YearCtx) (slotIn : Option ℚ) (rv : Tranche)
    (h : ctx.revQ = some rv) : (slot7 ctx slotIn).isSome = true := by
  unfold slot7
  rw [h]
  cases slot6 ctx slotIn <;> rfl

/-- Every branch of the per-tranche record stores a closing balance. -/
theorem recOf_balance_isSome (ctx : YearCtx) (slotIn : Option ℚ) (t : Tranche) :
    ((recOf ctx slotIn t).balance).isSome = true := by
  by_cases h1 : ctx.revQ = some t
  · unfold recOf
    rw [if_pos h1]
    exact slot7_isSome ctx slotIn t h1
  · unfold recOf
    rw [if_neg h1]
    by_cases h2 : isRevolverType t.trancheType = true
    · rw [if_pos h2]
      exact rfl
    · rw [if_neg h2]
      exact rfl

/-- C2 (amended): in every year of the waterfall, the iteration-local
taxes of the final iteration satisfy
taxes = max(0, PBT · t_iter) with PBT = EBIT − total interest and
t_iter = |first-pass taxes| / EBIT when EBIT > 0 and the hard-coded
constant 0.25 — not the deal's tax rate — when EBIT ≤ 0. -/
theorem C2_iteration_tax_formula (inp : Input) :
    ∀ yo ∈ (analysisOf inp).years,
      yo.taxRateUsed = (if 0 < yo.ebit then yo.firstPassTaxAbs / yo.ebit else 25 / 100) ∧
      yo.taxesUsed = max 0 (yo.pbt * yo.taxRateUsed) ∧
      yo.pbt = yo.ebit - yo.totalInterest := by
  intro yo hyo
  obtain ⟨y, cf, idx2, b2, pc2, hy⟩ :=
    calcYears_mem inp.tranches (findRevolver inp.tranches) inp.minCash
      (calcAnnualCashFlows inp) 0 (initBalFn inp.tranches) inp.minCash yo hyo
  obtain ⟨s, hs⟩ :=
    runIters_shape (mkCtx inp.tranches (findRevolver inp.tranches) inp.minCash b2 pc2 idx2 cf)
      10 none (initRev (findRevolver inp.tranches) b2)
  rw [hy, hs]
  exact ⟨rfl, rfl, rfl⟩

/-- First forecast year of Scenario A as computed by the engine. -/
def scenarioAYear2025 : YearOut :=
  { year := 2025, recs := [], totalInterest := 0, cashInterest := 0, endingCash := 21,
    cfads := 21, available := 21, taxRateUsed := 1 / 4, taxesUsed := 7, pbt := 28,
    ebit := 28, firstPassTaxAbs := 7, prevCash := 0, iterations := 1 }

set_option maxRecDepth 16000 in
/-- Witness for C2's amended theorem at the first Scenario A year. -/
theorem C2_iteration_tax_formula_witness :
    scenarioAYear2025.taxRateUsed =
      (if 0 < scenarioAYear2025.ebit then
        scenarioAYear2025.firstPassTaxAbs / scenarioAYear2025.ebit else 25 / 100) ∧
    scenarioAYear2025.taxesUsed = max 0 (scenarioAYear2025.pbt * scenarioAYear2025.taxRateUsed) ∧
    scenarioAYear2025.pbt = scenarioAYear2025.ebit - scenarioAYear2025.totalInterest :=
  C2_iteration_tax_formula scenarioA scenarioAYear2025 (by with_unfolding_all decide)

/-- C9: the debt waterfall always terminates — each year's fixed-point
loop executes at most 10 iterations, and exactly one when the deal has no
revolver; the recorded values are those of the last executed iteration
(`runIters_shape`) and no error is raised. -/
theorem C9_iteration_bound (inp : Input) :
    ∀ yo ∈ (analysisOf inp).years,
      yo.iterations ≤ 10 ∧
        ((∀ t ∈ inp.tranches, isRevolverType t.trancheType = false) →
          yo.iterations = 1) := by
  intro yo hyo
  obtain ⟨y, cf, idx2, b2, pc2, hy⟩ :=
    calcYears_mem inp.tranches (findRevolver inp.tranches) inp.minCash
      (calcAnnualCashFlows inp) 0 (initBalFn inp.tranches) inp.minCash yo hyo
  constructor
  · rw [hy]
    have h := runIters_count_le
      (mkCtx inp.tranches (findRevolver inp.tranches) inp.minCash b2 pc2 idx2 cf)
      10 none (initRev (findRevolver inp.tranches) b2)
    have h2 : max 1 10 = 10 := by norm_num
    rw [h2] at h
    exact h
  · intro hall
    have hnone : findRevolver inp.tranches = none :=
      List.find?_eq_none.mpr fun t ht => by simp [hall t ht]
    rw [hy]
    exact runIters_count_norev _ hnone 10 none (initRev (findRevolver inp.tranches) b2)

set_option maxRecDepth 16000 in
/-- Witness for C9 at the first Scenario A year (no revolver: exactly one
iteration). -/
theorem C9_iteration_bound_witness : scenarioAYear2025.iterations = 1 :=
  (C9_iteration_bound scenarioA scenarioAYear2025 (by with_unfolding_all decide)).2
    (by with_unfolding_all decide)

/-- C10: the waterfall starts the ending-cash accumulation from
`minimum_cash`: the first forecast year's prior cash is exactly
`minimum_cash`, so its available cash for debt service equals its CFADS
(minimum_cash + CFADS − minimum_cash). -/
theorem C10_first_year_cash (inp : Input) (yo : YearOut)
    (h : (analysisOf inp).years.head? = some yo) :
    yo.prevCash = inp.minCash ∧ yo.available = yo.cfads := by
  have h2 : (calcYears inp.tranches (findRevolver inp.tranches) inp.minCash
      (calcAnnualCashFlows inp) 0 (initBalFn inp.tranches) inp.minCash).head? = some yo := h
  cases hcfs : calcAnnualCashFlows inp with
  | nil =>
    rw [hcfs] at h2
    exact absurd h2 (by rw [calcYears]; exact Option.noConfusion)
  | cons hd tl =>
    obtain ⟨y, cf⟩ := hd
    rw [hcfs, calcYears] at h2
    rw [List.head?_cons] at h2
    have h3 := Option.some.inj h2
    obtain ⟨s, hs⟩ :=
      runIters_shape
        (mkCtx inp.tranches (findRevolver inp.tranches) inp.minCash (initBalFn inp.tranches)
          inp.minCash 0 cf)
        10 none (initRev (findRevolver inp.tranches) (initBalFn inp.tranches))
    constructor
    · rw [← h3]
      exact rfl
    · rw [← h3, hs]
      show inp.minCash + cfadsIter _ - inp.minCash = cfadsIter _
      exact add_sub_cancel_left inp.minCash _


set_option maxRecDepth 16000 in
/-- Witness for C10 at Scenario A. -/
theorem C10_first_year_cash_witness :
    scenarioAYear2025.prevCash = scenarioA.minCash ∧
      scenarioAYear2025.available = scenarioAYear2025.cfads :=
  C10_first_year_cash scenarioA scenarioAYear2025 (by with_unfolding_all decide)

/-- C7 (amended): for every year of the forecast horizon, every tranche —
including an undrawn revolver or a fully repaid tranche — has a record in
the waterfall output with an opening balance, a recorded closing balance
and a full principal triple; but the cash-interest and PIK entries for the
year exist exactly when the opening balance is strictly positive. -/
theorem C7_recording_amended (inp : Input) :
    ∀ yo ∈ (analysisOf inp).years, ∀ t ∈ inp.tranches,
      ∃ r, (t.label, r) ∈ yo.recs ∧
        (r.interest.isSome = true ↔ 0 < r.opening) ∧
        (r.pik.isSome = true ↔ 0 < r.opening) ∧
        r.balance.isSome = true := by
  intro yo hyo t ht
  obtain ⟨y, cf, idx2, b2, pc2, hy⟩ :=
    calcYears_mem inp.tranches (findRevolver inp.tranches) inp.minCash
      (calcAnnualCashFlows inp) 0 (initBalFn inp.tranches) inp.minCash yo hyo
  obtain ⟨s, hs⟩ :=
    runIters_shape (mkCtx inp.tranches (findRevolver inp.tranches) inp.minCash b2 pc2 idx2 cf)
      10 none (initRev (findRevolver inp.tranches) b2)
  refine ⟨recOf (mkCtx inp.tranches (findRevolver inp.tranches) inp.minCash b2 pc2 idx2 cf) s t,
    ?_, ?_, ?_, ?_⟩
  · rw [hy, hs]
    exact List.mem_map.mpr ⟨t, ht, rfl⟩
  · rw [recOf_interest, recOf_opening]
    unfold cashIntRec
    by_cases hb : 0 < bb (mkCtx inp.tranches (findRevolver inp.tranches) inp.minCash b2 pc2 idx2 cf) t
    · rw [if_pos hb]
      simp [hb]
    · rw [if_neg hb]
      simp [hb]
  · rw [recOf_pik, recOf_opening]
    unfold pikIntRec
    by_cases hb : 0 < bb (mkCtx inp.tranches (findRevolver inp.tranches) inp.minCash b2 pc2 idx2 cf) t
    · rw [if_pos hb]
      simp [hb]
    · rw [if_neg hb]
      simp [hb]
  · exact recOf_balance_isSome _ s t

/-- The TL record of the revolver-draw deal in 2025. -/
def drawTLRec2025 : TrancheYearRec :=
  { opening := 100, interest := some 0, pik := some 0, balance := some 50,
    mandatory := 50, sweep := 0, total := 50, draw := none }

/-- The RCF record of the revolver-draw deal in 2025: drawn 20, recorded
principal total 0, no interest entries (zero opening balance). -/
def drawRCFRec2025 : TrancheYearRec :=
  { opening := 0, interest := none, pik := none, balance := some 20,
    mandatory := 0, sweep := 0, total := 0, draw := some 20 }

/-- Year 2025 of the revolver-draw deal as computed by the engine. -/
def drawYear2025 : YearOut :=
  { year := 2025, recs := [("TL", drawTLRec2025), ("RCF", drawRCFRec2025)],
    totalInterest := 0, cashInterest := 0, endingCash := -20, cfads := 30,
    available := 30, taxRateUsed := 1 / 4, taxesUsed := 10, pbt := 40, ebit := 40,
    firstPassTaxAbs := 10, prevCash := 0, iterations := 2 }

set_option maxRecDepth 16000 in
/-- Witness for C7's amended theorem: the undrawn revolver of the draw deal
has a record for 2025. -/
theorem C7_recording_amended_witness :
    (drawYear2025.recs.find? fun p => p.1 == "RCF").isSome = true := by
  obtain ⟨r, hr, -, -, -⟩ :=
    C7_recording_amended drawInput drawYear2025 (by with_unfolding_all decide) drawRCF
      (by with_unfolding_all decide)
  exact List.find?_isSome.mpr ⟨("RCF", r), hr, rfl⟩

/-- C6 (amended): an amortization schedule that does not parse is not a
binder failure — the analysis returns a failure result exactly when EBITDA
is absent, when no positive purchase price is derivable, or when the
forecast horizon is empty; the schedule strings play no part in it. -/
theorem C6_failure_conditions (inp : Input) :
    (∃ e, runLBO inp = Except.error e) ↔
      (inp.ebitda = none ∨ purchasePriceOf inp ≤ 0 ∨ horizonYears inp = []) := by
  unfold runLBO
  split_ifs with h1 h2 h3
  · simp [Option.isNone_iff_eq_none.mp h1]
  · simp [h2]
  · simp [h3]
  · rw [Option.isNone_iff_eq_none] at h1
    simp [h1, h2, h3]

/-- Keys of the first-pass cash-flow table are exactly the forecast years. -/
theorem cfRows_keys (inp : Input) :
    ∀ (ys : List ℕ) (pw : ℚ), (cfRows inp ys pw).map Prod.fst = ys := by
  intro ys
  induction ys with
  | nil => intro pw; rfl
  | cons y ys ih =>
    intro pw
    rw [cfRows, List.map_cons, ih]

/-- The re-tax pass keeps the year keys. -/
theorem updateWithInterest_keys (t : ℚ) (cfs : List (ℕ × YearCF)) (ti ci : List (ℕ × ℚ)) :
    (updateWithInterest t cfs ti ci).map Prod.fst = cfs.map Prod.fst := by
  unfold updateWithInterest
  rw [List.map_map]
  exact List.map_congr_left fun p _ => rfl

/-- Folded maximum of a nonempty ascending range. -/
theorem foldl_max_range' :
    ∀ (n s acc : ℕ), (List.range' s (n + 1)).foldl max acc = max acc (s + n) := by
  intro n
  induction n with
  | zero =>
    intro s acc
    simp [List.range']
  | succ m ih =>
    intro s acc
    rw [List.range'_succ, List.foldl_cons, ih (s + 1), max_assoc]
    congr 1
    rw [Nat.max_eq_right (by omega)]
    omega

/-- The value `max(annual_cash_flows.keys())` is the exit year (the horizon is the
ascending range deal_year+1 .. exit_year). -/
theorem maxKeys_horizon (inp : Input) (h : inp.dealYear < inp.exitYear)
    (ti ci : List (ℕ × ℚ)) :
    maxKeys (updateWithInterest inp.taxRate (calcAnnualCashFlows inp) ti ci) =
      inp.exitYear := by
  unfold maxKeys
  rw [updateWithInterest_keys]
  unfold calcAnnualCashFlows
  rw [cfRows_keys]
  unfold horizonYears
  have h2 : inp.exitYear - inp.dealYear = (inp.exitYear - inp.dealYear - 1) + 1 := by omega
  rw [h2, foldl_max_range']
  rw [Nat.max_eq_right (Nat.zero_le _)]
  omega

/-- The fallback loop leaves the default when no entry is positive. -/
theorem fallbackEbitda_nonpos :
    ∀ (L : List (ℕ × YearCF)) (e : ℚ), (∀ p ∈ L, p.2.ebitda ≤ 0) →
      fallbackEbitda L e = e := by
  intro L
  induction L with
  | nil => intro e _; rfl
  | cons hd tl ih =>
    intro e hall
    obtain ⟨z, cz⟩ := hd
    rw [fallbackEbitda, if_neg (not_lt.mpr (hall (z, cz) (List.mem_cons_self _ _)))]
    exact ih e fun p hp => hall p (List.mem_cons_of_mem _ hp)

/-- On a list whose keys strictly decrease, the fallback loop returns the
entry of the most recent year with strictly positive EBITDA. -/
theorem fallbackEbitda_first_pos :
    ∀ (L : List (ℕ × YearCF)) (e : ℚ) (y : ℕ) (cf : YearCF),
      L.Pairwise (fun p q => q.1 < p.1) →
      (y, cf) ∈ L → 0 < cf.ebitda →
      (∀ z cz, (z, cz) ∈ L → y < z → cz.ebitda ≤ 0) →
      fallbackEbitda L e = cf.ebitda := by
  intro L
  induction L with
  | nil =>
    intro e y cf _ hm
    exact absurd hm (List.not_mem_nil _)
  | cons hd tl ih =>
    intro e y cf hpw hm hpos hlater
    obtain ⟨z0, c0⟩ := hd
    rw [fallbackEbitda]
    rcases List.mem_cons.mp hm with heq | htl
    · have hy : y = z0 := congrArg Prod.fst heq
      have hcf : cf = c0 := congrArg Prod.snd heq
      rw [← hcf]
      rw [if_pos hpos]
    · have hlt : y < z0 := (List.pairwise_cons.mp hpw).1 (y, cf) htl
      have hc0 : c0.ebitda ≤ 0 := hlater z0 c0 (List.mem_cons_self _ _) hlt
      rw [if_neg (not_lt.mpr hc0)]
      exact ih e y cf (List.pairwise_cons.mp hpw).2 htl hpos
        fun z cz hz hyz => hlater z cz (List.mem_cons_of_mem _ hz) hyz

/-- Keys of the final cash-flow table strictly increase along the list. -/
theorem updateWithInterest_pairwise (inp : Input) (ti ci : List (ℕ × ℚ)) :
    (updateWithInterest inp.taxRate (calcAnnualCashFlows inp) ti ci).Pairwise
      (fun p q => p.1 < q.1) := by
  have h1 : ((updateWithInterest inp.taxRate (calcAnnualCashFlows inp) ti ci).map
      Prod.fst).Pairwise (· < ·) := by
    rw [updateWithInterest_keys]
    unfold calcAnnualCashFlows
    rw [cfRows_keys]
    exact List.pairwise_lt_range' _ _
  exact (List.pairwise_map).mp h1

/-- C5 (amended): the exit EBITDA is the final forecast year's EBITDA; if
that is exactly zero, the most recent forecast year with strictly positive
EBITDA; and if no forecast year has strictly positive EBITDA, the exit
EBITDA and exit enterprise value are 0 and the exit proceeds degrade to
final cash − final debt — the returned MOIC and IRR are then those of
these proceeds, not necessarily 0. -/
theorem C5_exit_ebitda_selection (inp : Input) (hne : inp.dealYear < inp.exitYear) :
    ((lookupCF (analysisOf inp).cashFlows inp.exitYear).ebitda ≠ 0 →
      (analysisOf inp).exitEbitda =
        (lookupCF (analysisOf inp).cashFlows inp.exitYear).ebitda) ∧
    ((lookupCF (analysisOf inp).cashFlows inp.exitYear).ebitda = 0 →
      ∀ (y : ℕ) (cf : YearCF), (y, cf) ∈ (analysisOf inp).cashFlows → 0 < cf.ebitda →
        (∀ (z : ℕ) (cz : YearCF), (z, cz) ∈ (analysisOf inp).cashFlows → y < z →
          cz.ebitda ≤ 0) →
        (analysisOf inp).exitEbitda = cf.ebitda) ∧
    ((lookupCF (analysisOf inp).cashFlows inp.exitYear).ebitda = 0 →
      (∀ p ∈ (analysisOf inp).cashFlows, p.2.ebitda ≤ 0) →
      (analysisOf inp).exitEbitda = 0 ∧ (analysisOf inp).exitEV = 0 ∧
        (analysisOf inp).exitProceeds =
          (analysisOf inp).finalCash - (analysisOf inp).finalDebt) := by
  have hfy : (analysisOf inp).finalYear = inp.exitYear := maxKeys_horizon inp hne _ _
  refine ⟨?_, ?_, ?_⟩
  · intro h0
    show selectExitEbitda (analysisOf inp).cashFlows (analysisOf inp).finalYear = _
    rw [hfy]
    simp only [selectExitEbitda]
    rw [if_neg h0]
  · intro h0 y cf hm hpos hlater
    show selectExitEbitda (analysisOf inp).cashFlows (analysisOf inp).finalYear = cf.ebitda
    rw [hfy]
    simp only [selectExitEbitda]
    rw [if_pos h0]
    apply fallbackEbitda_first_pos
    · rw [List.pairwise_reverse]
      exact updateWithInterest_pairwise inp _ _
    · exact List.mem_reverse.mpr hm
    · exact hpos
    · intro z cz hz
      exact hlater z cz (List.mem_reverse.mp hz)
  · intro h0 hall
    have he : (analysisOf inp).exitEbitda = 0 := by
      show selectExitEbitda (analysisOf inp).cashFlows (analysisOf inp).finalYear = 0
      rw [hfy]
      simp only [selectExitEbitda]
      rw [if_pos h0]
      rw [fallbackEbitda_nonpos _ _ fun p hp => hall p (List.mem_reverse.mp hp)]
      exact h0
    have hev : (analysisOf inp).exitEV = 0 := by
      show (analysisOf inp).exitEbitda * inp.exitMultiple = 0
      rw [he, zero_mul]
    have hfees : (analysisOf inp).exitFees = 0 := by
      show (analysisOf inp).exitEV * (inp.exitFeePct / 100) = 0
      rw [hev, zero_mul]
    refine ⟨he, hev, ?_⟩
    show (analysisOf inp).exitEV + (analysisOf inp).finalCash - (analysisOf inp).finalDebt -
        (analysisOf inp).exitFees = _
    rw [hev, hfees]
    ring

set_option maxRecDepth 16000 in
/-- Witness for C5's amended theorem at the degenerate-EBITDA deal: the
exit enterprise value is 0 and the proceeds are final cash − final debt. -/
theorem C5_exit_ebitda_selection_witness :
    (analysisOf degenerateInput).exitEV = 0 ∧
      (analysisOf degenerateInput).exitProceeds =
        (analysisOf degenerateInput).finalCash - (analysisOf degenerateInput).finalDebt :=
  ((C5_exit_ebitda_selection degenerateInput (by with_unfolding_all decide)).2.2
    (by with_unfolding_all decide) (by with_unfolding_all decide)).2

/-- The revolver draw accumulated by step 5 is nonnegative (each shortfall
contribution `due − max 0 remaining` is positive in the branch that adds
it). -/
theorem step5Go_draw_nonneg (ctx : YearCtx) :
    ∀ (ts : List Tranche) (r d : ℚ), 0 ≤ d → 0 ≤ (step5Go ctx ts r d).2 := by
  intro ts
  induction ts with
  | nil => intro r d hd; exact hd
  | cons t ts ih =>
    intro r d hd
    rw [step5Go]
    by_cases h1 : mandDue ctx t ≤ 0
    · rw [if_pos h1]
      exact ih r d hd
    · rw [if_neg h1]
      by_cases h2 : mandDue ctx t ≤ r
      · rw [if_pos h2]
        exact ih _ d hd
      · rw [if_neg h2]
        apply ih
        have h3 : max 0 r < mandDue ctx t := max_lt (not_le.mp h1) (not_le.mp h2)
        linarith

/-- Every sweep assignment names a tranche of the walked list, is strictly
positive, and does not exceed that tranche's balance. -/
theorem sweepGo_mem (balFn : Tranche → ℚ) :
    ∀ (ts : List Tranche) (r : ℚ) (k : String) (v : ℚ),
      (k, v) ∈ sweepGo balFn ts r →
      ∃ u, u ∈ ts ∧ u.label = k ∧ 0 < v ∧ v ≤ balFn u := by
  intro ts
  induction ts with
  | nil =>
    intro r k v h
    exact absurd h (List.not_mem_nil _)
  | cons t ts ih =>
    intro r k v h
    rw [sweepGo] at h
    by_cases h1 : r ≤ 0
    · rw [if_pos h1] at h
      exact absurd h (List.not_mem_nil _)
    · rw [if_neg h1] at h
      by_cases h2 : 0 < balFn t
      · rw [if_pos h2] at h
        rcases List.mem_cons.mp h with heq | hm
        · have hk : t.label = k := congrArg Prod.fst heq.symm
          have hv : v = min r (balFn t) := congrArg Prod.snd heq
          refine ⟨t, List.mem_cons_self _ _, hk, ?_, ?_⟩
          · rw [hv]
            exact lt_min (not_le.mp h1) h2
          · rw [hv]
            exact min_le_right _ _
        · obtain ⟨u, hu, h3⟩ := ih _ k v hm
          exact ⟨u, List.mem_cons_of_mem _ hu, h3⟩
      · rw [if_neg h2] at h
        obtain ⟨u, hu, h3⟩ := ih _ k v h
        exact ⟨u, List.mem_cons_of_mem _ hu, h3⟩

/-- A defaulted lookup either returns the default or an entry of the list. -/
theorem lookupD_cases :
    ∀ (L : List (String × ℚ)) (k : String) (d : ℚ),
      lookupD L k d = d ∨ (k, lookupD L k d) ∈ L := by
  intro L
  induction L with
  | nil => intro k d; exact Or.inl rfl
  | cons p ps ih =>
    intro k d
    obtain ⟨k2, v⟩ := p
    rw [lookupD]
    by_cases h : k2 = k
    · rw [if_pos h]
      subst h
      exact Or.inr (List.mem_cons_self _ _)
    · rw [if_neg h]
      rcases ih k d with h1 | h1
      · exact Or.inl h1
      · exact Or.inr (List.mem_cons_of_mem _ h1)

/-- Non-revolver tranches of a year, characterized. -/
theorem mem_sortedNonRev (ctx : YearCtx) (t : Tranche) :
    t ∈ sortedNonRev ctx ↔ t ∈ ctx.tranches ∧ isRevolverType t.trancheType = false := by
  unfold sortedNonRev
  rw [(List.perm_insertionSort _ _).mem_iff, List.mem_filter]
  simp

/-- Distinct labels survive the filter and the sort. -/
theorem sortedNonRev_labels_nodup (ctx : YearCtx)
    (hN : (ctx.tranches.map Tranche.label).Nodup) :
    ((sortedNonRev ctx).map Tranche.label).Nodup := by
  have hperm : ((sortedNonRev ctx).map Tranche.label).Perm
      ((ctx.tranches.filter fun t => !(isRevolverType t.trancheType)).map Tranche.label) :=
    (List.perm_insertionSort _ _).map _
  rw [hperm.nodup_iff]
  exact hN.sublist ((List.filter_sublist _).map _)

/-- Balance after PIK capitalization is nonnegative for nonnegative opening
balances and PIK rates. -/
theorem balAfterPik_nonneg (ctx : YearCtx) (t : Tranche) (hb : 0 ≤ bb ctx t)
    (hp : 0 ≤ t.pikRate) : 0 ≤ balAfterPik ctx t := by
  unfold balAfterPik pikIntRec
  by_cases h : 0 < bb ctx t
  · rw [if_pos h]
    simp only [Option.getD_some]
    exact add_nonneg hb (mul_nonneg h.le hp)
  · rw [if_neg h]
    simpa using hb

/-- The mandatory amount is clipped to the post-PIK balance. -/
theorem mandDue_le_bal (ctx : YearCtx) (t : Tranche) (h0 : 0 ≤ balAfterPik ctx t) :
    mandDue ctx t ≤ balAfterPik ctx t := by
  unfold mandDue
  split_ifs with h
  · exact min_le_right _ _
  · exact h0

/-- The recorded mandatory payment lies between 0 and the post-PIK balance. -/
theorem mandRec_bounds (ctx : YearCtx) (t : Tranche) (h0 : 0 ≤ balAfterPik ctx t) :
    0 ≤ mandRec ctx t ∧ mandRec ctx t ≤ balAfterPik ctx t := by
  unfold mandRec
  by_cases h : 0 < mandDue ctx t
  · rw [if_pos h]
    exact ⟨h.le, mandDue_le_bal ctx t h0⟩
  · rw [if_neg h]
    exact ⟨le_refl 0, h0⟩

/-- The sweep received by a tranche lies between 0 and its balance after
mandatory amortization. -/
theorem sweepOfT_bounds (ctx : YearCtx) (slotIn : Option ℚ) (t : Tranche)
    (hN : ((sortedNonRev ctx).map Tranche.label).Nodup)
    (ht : t ∈ sortedNonRev ctx)
    (hb : ∀ u ∈ sortedNonRev ctx, 0 ≤ bal1 ctx u) :
    0 ≤ sweepOfT ctx slotIn t ∧ sweepOfT ctx slotIn t ≤ bal1 ctx t := by
  unfold sweepOfT sweeps
  by_cases hr : 0 < remaining5 ctx
  · rw [if_pos hr]
    rcases lookupD_cases (sweepGo (bal1 ctx) (sortedNonRev ctx) (remaining6 ctx slotIn))
        t.label 0 with h | h
    · rw [h]
      exact ⟨le_refl 0, hb t ht⟩
    · obtain ⟨u, hu, hlab, hvpos, hvle⟩ := sweepGo_mem (bal1 ctx) _ _ _ _ h
      have hu2 : u = t := List.inj_on_of_nodup_map hN hu ht hlab
      rw [hu2] at hvle
      exact ⟨hvpos.le, hvle⟩
  · rw [if_neg hr]
    exact ⟨le_refl 0, hb t ht⟩

/-- The step-6 revolver slot only ever holds nonnegative values when the
prior balances and the incoming slot are nonnegative. -/
theorem slot6_nonneg (ctx : YearCtx) (slotIn : Option ℚ)
    (hb : ∀ l, 0 ≤ ctx.balPrev l) (hs : ∀ x, slotIn = some x → 0 ≤ x) :
    ∀ w, slot6 ctx slotIn = some w → 0 ≤ w := by
  intro w hw
  unfold slot6 at hw
  by_cases hc : rcfRepayCond ctx slotIn
  · rw [if_pos hc] at hw
    rw [← Option.some.inj hw]
    unfold rcfRepay
    rw [if_pos hc]
    exact sub_nonneg.mpr (min_le_right _ _)
  · rw [if_neg hc] at hw
    unfold slotAfterDraw at hw
    by_cases hd : ctx.revQ.isSome ∧ 0 < rcfDraw ctx
    · rw [if_pos hd] at hw
      rw [← Option.some.inj hw]
      apply add_nonneg
      · unfold prevRcfBal
        cases ctx.revQ with
        | none => exact le_refl 0
        | some rv => exact hb _
      · exact hd.2.le
    · rw [if_neg hd] at hw
      exact hs w hw

/-- The step-7 revolver slot only ever holds nonnegative values. -/
theorem slot7_nonneg (ctx : YearCtx) (slotIn : Option ℚ)
    (hb : ∀ l, 0 ≤ ctx.balPrev l) (hs : ∀ x, slotIn = some x → 0 ≤ x) :
    ∀ v, slot7 ctx slotIn = some v → 0 ≤ v := by
  intro v hv
  unfold slot7 at hv
  cases hrev : ctx.revQ with
  | none =>
    rw [hrev] at hv
    exact slot6_nonneg ctx slotIn hb hs v hv
  | some rv =>
    rw [hrev] at hv
    cases h6 : slot6 ctx slotIn with
    | none =>
      rw [h6] at hv
      rw [← Option.some.inj hv]
      exact hb _
    | some w =>
      rw [h6] at hv
      rw [← Option.some.inj hv]
      exact slot6_nonneg ctx slotIn hb hs w h6

/-- All balances of step-2 survivors of the waterfall order are nonnegative. -/
theorem bal1_nonneg_all (ctx : YearCtx)
    (hpik : ∀ t ∈ ctx.tranches, 0 ≤ t.pikRate) (hb : ∀ l, 0 ≤ ctx.balPrev l) :
    ∀ u ∈ sortedNonRev ctx, 0 ≤ bal1 ctx u := by
  intro u hu
  obtain ⟨humem, -⟩ := (mem_sortedNonRev ctx u).mp hu
  have hba : 0 ≤ balAfterPik ctx u := balAfterPik_nonneg ctx u (hb _) (hpik u humem)
  have hm := mandRec_bounds ctx u hba
  unfold bal1
  linarith [hm.2]

/-- One iteration of the waterfall keeps every recorded closing balance and
the revolver closing nonnegative, given nonnegative prior balances, PIK
rates and incoming slot. -/
theorem iterStep_nonneg (ctx : YearCtx) (slotIn : Option ℚ)
    (hN : (ctx.tranches.map Tranche.label).Nodup)
    (hpik : ∀ t ∈ ctx.tranches, 0 ≤ t.pikRate)
    (hb : ∀ l, 0 ≤ ctx.balPrev l)
    (hs : ∀ x, slotIn = some x → 0 ≤ x) :
    (∀ p ∈ (iterStep ctx slotIn).recs, 0 ≤ p.2.balance.getD 0) ∧
      0 ≤ (iterStep ctx slotIn).rcfClosing := by
  have hslot7 := slot7_nonneg ctx slotIn hb hs
  constructor
  · intro p hp
    obtain ⟨t, ht, hpt⟩ := List.mem_map.mp hp
    rw [← hpt]
    show 0 ≤ (recOf ctx slotIn t).balance.getD 0
    by_cases h1 : ctx.revQ = some t
    · unfold recOf
      rw [if_pos h1]
      show 0 ≤ (slot7 ctx slotIn).getD 0
      cases h7 : slot7 ctx slotIn with
      | none => exact le_refl 0
      | some v => simpa using hslot7 v h7
    · by_cases h2 : isRevolverType t.trancheType = true
      · unfold recOf
        rw [if_neg h1, if_pos h2]
        show 0 ≤ (some (balAfterPik ctx t)).getD 0
        simpa using balAfterPik_nonneg ctx t (hb _) (hpik t ht)
      · unfold recOf
        rw [if_neg h1, if_neg h2]
        show 0 ≤ (some (bal2 ctx slotIn t)).getD 0
        have htm : t ∈ sortedNonRev ctx :=
          (mem_sortedNonRev ctx t).mpr ⟨ht, by simpa using h2⟩
        have hsw := sweepOfT_bounds ctx slotIn t (sortedNonRev_labels_nodup ctx hN) htm
          (bal1_nonneg_all ctx hpik hb)
        simp only [Option.getD_some]
        unfold bal2
        linarith [hsw.2]
  · show 0 ≤ (slot7 ctx slotIn).getD 0
    cases h7 : slot7 ctx slotIn with
    | none => exact le_refl 0
    | some v => simpa using hslot7 v h7

/-- Shape of the fixed-point loop's result together with nonnegativity of
the slot it was produced from. -/
theorem runIters_shape_nonneg (ctx : YearCtx)
    (hN : (ctx.tranches.map Tranche.label).Nodup)
    (hpik : ∀ t ∈ ctx.tranches, 0 ≤ t.pikRate)
    (hb : ∀ l, 0 ≤ ctx.balPrev l) :
    ∀ (fuel : ℕ) (slotIn : Option ℚ) (prevRev : ℚ),
      (∀ x, slotIn = some x → 0 ≤ x) →
      ∃ s, (runIters ctx fuel slotIn prevRev).1 = iterStep ctx s ∧
        (∀ x, s = some x → 0 ≤ x) := by
  intro fuel
  induction fuel with
  | zero =>
    intro slotIn prevRev hs
    exact ⟨slotIn, rfl, hs⟩
  | succ n ih =>
    intro slotIn prevRev hs
    unfold runIters
    split_ifs with h1 h2 h3
    · exact ⟨slotIn, rfl, hs⟩
    · exact ⟨slotIn, rfl, hs⟩
    · exact ⟨slotIn, rfl, hs⟩
    · apply ih
      intro x hx
      rw [← Option.some.inj hx]
      exact (iterStep_nonneg ctx slotIn hN hpik hb hs).2

/-- The balances carried into the next year stay nonnegative. -/
theorem nextBal_nonneg (r : IterOut) (balPrev : String → ℚ)
    (hrecs : ∀ p ∈ r.recs, 0 ≤ p.2.balance.getD 0) (hb : ∀ l, 0 ≤ balPrev l) :
    ∀ l, 0 ≤ nextBalFn r balPrev l := by
  intro l
  unfold nextBalFn
  cases hf : r.recs.find? fun p => p.1 == l with
  | none => exact hb l
  | some p => exact hrecs p (List.mem_of_find?_eq_some hf)

/-- Every row of the year fold is built from an `iterStep` whose context
carries nonnegative prior balances and whose slot is nonnegative, provided
the deal's tranches have nonnegative PIK rates and the initial balances
are nonnegative. -/
theorem calcYears_mem_nonneg (tranches : List Tranche) (revQ : Option Tranche)
    (minCash : ℚ) (hN : (tranches.map Tranche.label).Nodup)
    (hpik : ∀ t ∈ tranches, 0 ≤ t.pikRate) :
    ∀ (cfs : List (ℕ × YearCF)) (idx : ℕ) (balPrev : String → ℚ) (prevCash : ℚ)
      (yo : YearOut), (∀ l, 0 ≤ balPrev l) →
      yo ∈ calcYears tranches revQ minCash cfs idx balPrev prevCash →
      ∃ (cf : YearCF) (idx2 : ℕ) (balPrev2 : String → ℚ) (prevCash2 : ℚ) (s : Option ℚ),
        (∀ l, 0 ≤ balPrev2 l) ∧ (∀ x, s = some x → 0 ≤ x) ∧
        yo.recs = (iterStep (mkCtx tranches revQ minCash balPrev2 prevCash2 idx2 cf) s).recs := by
  intro cfs
  induction cfs with
  | nil =>
    intro idx balPrev prevCash yo hb h
    exact absurd h (List.not_mem_nil _)
  | cons hd tl ih =>
    intro idx balPrev prevCash yo hb h
    obtain ⟨y, cf⟩ := hd
    rw [calcYears] at h
    rcases List.mem_cons.mp h with h1 | h2
    · obtain ⟨s, hs1, hs2⟩ :=
        runIters_shape_nonneg (mkCtx tranches revQ minCash balPrev prevCash idx cf) hN hpik hb
          10 none (initRev revQ balPrev) (fun x hx => Option.noConfusion hx)
      refine ⟨cf, idx, balPrev, prevCash, s, hb, hs2, ?_⟩
      rw [h1]
      show (runIters (mkCtx tranches revQ minCash balPrev prevCash idx cf) 10 none
        (initRev revQ balPrev)).1.recs = _
      rw [hs1]
    · apply ih _ _ _ yo ?_ h2
      obtain ⟨s, hs1, hs2⟩ :=
        runIters_shape_nonneg (mkCtx tranches revQ minCash balPrev prevCash idx cf) hN hpik hb
          10 none (initRev revQ balPrev) (fun x hx => Option.noConfusion hx)
      apply nextBal_nonneg
      · rw [hs1]
        exact (iterStep_nonneg _ s hN hpik hb hs2).1
      · exact hb

/-- C4: for every deal whose tranches have distinct labels and
data-model-conformant sizes, drawn fractions and PIK rates, every
non-revolver tranche's recorded closing balance in every forecast year
equals max(0, opening + PIK − principal total) and the clamp is inactive —
the closing balance is never negative (mandatory amortization is clipped
to the balance and sweeps are capped at the remaining balance). -/
theorem C4_nonrevolver_closing_balance (inp : Input)
    (hN : (inp.tranches.map Tranche.label).Nodup)
    (hparam : ∀ t ∈ inp.tranches,
      0 ≤ t.originalSize ∧ 0 ≤ t.percentageDrawn ∧ 0 ≤ t.pikRate) :
    ∀ yo ∈ (analysisOf inp).years, ∀ t ∈ inp.tranches,
      isRevolverType t.trancheType = false →
      ∀ r, (t.label, r) ∈ yo.recs →
        r.balance = some (max 0 (r.opening + r.pik.getD 0 - r.total)) ∧
        0 ≤ r.opening + r.pik.getD 0 - r.total := by
  intro yo hyo t ht hflag r hr
  have hpik : ∀ u ∈ inp.tranches, 0 ≤ u.pikRate := fun u hu => (hparam u hu).2.2
  have hb0 : ∀ l, 0 ≤ initBalFn inp.tranches l := by
    intro l
    unfold initBalFn
    rcases lookupD_cases (inp.tranches.map fun u => (u.label, u.drawnAmount)) l 0 with h | h
    · rw [h]
    · obtain ⟨u, hu, he⟩ := List.mem_map.mp h
      rw [Prod.mk.injEq] at he
      rw [← he.2]
      exact mul_nonneg (hparam u hu).1 (hparam u hu).2.1
  obtain ⟨cf, idx2, b2, pc2, s, hb2, hsNonneg, hrecs⟩ :=
    calcYears_mem_nonneg inp.tranches (findRevolver inp.tranches) inp.minCash hN hpik
      (calcAnnualCashFlows inp) 0 (initBalFn inp.tranches) inp.minCash yo hb0 hyo
  rw [hrecs] at hr
  obtain ⟨u, hu, he⟩ := List.mem_map.mp hr
  have hlab : u.label = t.label := congrArg Prod.fst he
  have hu2 : u = t := List.inj_on_of_nodup_map hN hu ht hlab
  have hrec : r = recOf (mkCtx inp.tranches (findRevolver inp.tranches) inp.minCash b2 pc2
      idx2 cf) s t := by
    rw [← hu2]
    exact (congrArg Prod.snd he).symm
  have hnotchosen :
      ¬ ((mkCtx inp.tranches (findRevolver inp.tranches) inp.minCash b2 pc2 idx2 cf).revQ
        = some t) := by
    intro hc
    have hc2 : List.find? (fun u => isRevolverType u.trancheType) inp.tranches = some t := hc
    have h2 := List.find?_some hc2
    have h3 : isRevolverType t.trancheType = true := h2
    rw [hflag] at h3
    exact Bool.noConfusion h3
  have hflag2 : ¬ (isRevolverType t.trancheType = true) := by
    rw [hflag]
    exact Bool.false_ne_true
  rw [hrec]
  unfold recOf
  rw [if_neg hnotchosen, if_neg hflag2]
  have hba : 0 ≤ balAfterPik
      (mkCtx inp.tranches (findRevolver inp.tranches) inp.minCash b2 pc2 idx2 cf) t :=
    balAfterPik_nonneg _ t (hb2 _) (hpik t ht)
  have hmand := mandRec_bounds _ t hba
  have htm : t ∈ sortedNonRev
      (mkCtx inp.tranches (findRevolver inp.tranches) inp.minCash b2 pc2 idx2 cf) :=
    (mem_sortedNonRev _ t).mpr ⟨ht, hflag⟩
  have hsw := sweepOfT_bounds _ s t (sortedNonRev_labels_nodup _ hN) htm
    (bal1_nonneg_all _ hpik hb2)
  have harith : bb (mkCtx inp.tranches (findRevolver inp.tranches) inp.minCash b2 pc2 idx2 cf) t
      + (pikIntRec (mkCtx inp.tranches (findRevolver inp.tranches) inp.minCash b2 pc2 idx2 cf)
        t).getD 0
      - (mandRec (mkCtx inp.tranches (findRevolver inp.tranches) inp.minCash b2 pc2 idx2 cf) t
        + sweepOfT (mkCtx inp.tranches (findRevolver inp.tranches) inp.minCash b2 pc2 idx2 cf)
          s t)
      = bal2 (mkCtx inp.tranches (findRevolver inp.tranches) inp.minCash b2 pc2 idx2 cf) s t := by
    unfold bal2 bal1 balAfterPik
    ring
  have hb2nn : 0 ≤ bal2
      (mkCtx inp.tranches (findRevolver inp.tranches) inp.minCash b2 pc2 idx2 cf) s t := by
    unfold bal2
    linarith [hsw.2]
  constructor
  · show some _ = some _
    congr 1
    rw [harith]
    exact (max_eq_right hb2nn).symm
  · show (0 : ℚ) ≤ _
    rw [harith]
    exact hb2nn

set_option maxRecDepth 16000 in
/-- Witness for C4 at the revolver-draw deal: the TL record of 2025
satisfies the closing-balance identity. -/
theorem C4_nonrevolver_closing_balance_witness :
    drawTLRec2025.balance =
      some (max 0 (drawTLRec2025.opening + drawTLRec2025.pik.getD 0 - drawTLRec2025.total)) ∧
    0 ≤ drawTLRec2025.opening + drawTLRec2025.pik.getD 0 - drawTLRec2025.total :=
  C4_nonrevolver_closing_balance drawInput (by with_unfolding_all decide)
    (by with_unfolding_all decide) drawYear2025 (by with_unfolding_all decide) drawTL
    (by with_unfolding_all decide) (by with_unfolding_all decide) drawTLRec2025
    (by with_unfolding_all decide)

end FinLine
